import Mathlib

/-!
Verification development for the wave/enemy/combat core of the arcade
shooter repository.  The Python classes `Enemy` (src/entities/enemy.py),
`Wave` / `WaveManager` (src/systems/wave_system.py), `Player`
(src/entities/player.py) and the enemy-bullet collision branch of
`GameManager._handle_enhanced_collisions` (src/core/game_manager.py) are
shallowly embedded below.  Python floats are modelled as rationals (`ℚ`),
Python ints as `Int` or `Nat`, and Python's floor division `//` as
`Int.fdiv`.  Randomized quantities (`random.randint`, `random.random`,
`random.choice`, spawner output) are passed in as explicit oracle
arguments, so theorems quantified over them cover every run of the code.
-/

namespace PygameProject

/-- Raw per-type configuration entry of the `enemy_configs` dictionary in
`Enemy._initialize_enemy_type` (src/entities/enemy.py lines 64-128).
Keys that only some entries carry are `Option`s; `config.get(key, default)`
becomes `Option.getD`. -/
structure RawConfig where
  speed : ℚ
  health : Int
  size : Int
  color : Int × Int × Int
  score : Int
  rotationSpeed : Option ℚ := none
  wobble : Option ℚ := none
  canShoot : Option Bool := none
  shootCooldown : Option ℚ := none
  shieldActive : Option Bool := none
  shieldTimer : Option ℚ := none
  splitOnDeath : Option Bool := none
  spawnMinions : Option Bool := none
  energyDrain : Option Bool := none
  phaseAbility : Option Bool := none
  teleportTimer : Option ℚ := none
  accel : Option ℚ := none
  aiTargeting : Option Bool := none
  deriving Repr, DecidableEq

/-- The `enemy_configs` dictionary of `Enemy._initialize_enemy_type`
(src/entities/enemy.py lines 64-128), as a partial map from type tag to
raw configuration. -/
def enemyConfigs (tag : String) : Option RawConfig :=
  match tag with
  | "basic" => some { speed := 80, health := 1, size := 15, color := (255, 100, 100),
                      score := 10, rotationSpeed := some 90, wobble := some 20 }
  | "fast" => some { speed := 200, health := 1, size := 12, color := (100, 255, 100),
                     score := 20, rotationSpeed := some 180, wobble := some 40 }
  | "heavy" => some { speed := 50, health := 4, size := 22, color := (100, 100, 255),
                      score := 40, rotationSpeed := some 60, wobble := some 10 }
  | "hunter" => some { speed := 120, health := 2, size := 16, color := (255, 150, 0),
                       score := 60, rotationSpeed := some 120, wobble := some 0,
                       aiTargeting := some true }
  | "sniper" => some { speed := 40, health := 2, size := 14, color := (150, 0, 255),
                       score := 80, rotationSpeed := some 45, canShoot := some true,
                       shootCooldown := some (5/2) }
  | "shielded" => some { speed := 70, health := 3, size := 18, color := (0, 200, 200),
                         score := 70, rotationSpeed := some 90, shieldActive := some true,
                         shieldTimer := some 8 }
  | "berserker" => some { speed := 60, health := 2, size := 20, color := (255, 0, 0),
                          score := 90, rotationSpeed := some 200, accel := some 150 }
  | "phantom" => some { speed := 100, health := 3, size := 17, color := (128, 0, 128),
                        score := 120, phaseAbility := some true, teleportTimer := some 4 }
  | "splitter" => some { speed := 90, health := 2, size := 19, color := (255, 100, 255),
                         score := 100, splitOnDeath := some true, rotationSpeed := some 150 }
  | "spawner" => some { speed := 30, health := 5, size := 25, color := (255, 255, 0),
                        score := 150, spawnMinions := some true, wobble := some 30 }
  | "energy_vampire" => some { speed := 110, health := 2, size := 16, color := (200, 0, 100),
                               score := 110, energyDrain := some true,
                               rotationSpeed := some 160 }
  | "mini_boss" => some { speed := 80, health := 8, size := 35, color := (255, 200, 0),
                          score := 300, canShoot := some true, shootCooldown := some (3/2),
                          shieldActive := some true }
  | "destroyer" => some { speed := 50, health := 15, size := 45, color := (200, 0, 0),
                          score := 500, canShoot := some true, shootCooldown := some 1,
                          spawnMinions := some true }
  | "void_lord" => some { speed := 70, health := 12, size := 40, color := (100, 0, 100),
                          score := 450, phaseAbility := some true, energyDrain := some true,
                          canShoot := some true }
  | _ => none

/-- State of one `Enemy` instance: the attributes read or written by the
embedded methods (`__init__`, `_initialize_enemy_type`, `take_damage`,
`get_split_enemies`). -/
structure EnemyState where
  x : ℚ
  y : ℚ
  enemyType : String
  active : Bool
  speed : ℚ
  health : Int
  maxHealth : Int
  size : Int
  color : Int × Int × Int
  scoreValue : Int
  rotationSpeed : ℚ
  wobbleAmplitude : ℚ
  canShoot : Bool
  shootCooldown : ℚ
  shieldActive : Bool
  shieldTimer : ℚ
  splitOnDeath : Bool
  spawnMinions : Bool
  energyDrain : Bool
  phaseAbility : Bool
  teleportTimer : ℚ
  accel : ℚ
  aiTargeting : Bool
  deriving Repr, DecidableEq

/-- Application of a raw configuration, mirroring the `config.get(...)`
defaults of `Enemy._initialize_enemy_type` (src/entities/enemy.py lines
130-153) together with the unconditional assignments of `Enemy.__init__`
(`active = True`, `max_health = health`). -/
def applyConfig (x y : ℚ) (tag : String) (c : RawConfig) : EnemyState :=
  { x := x
    y := y
    enemyType := tag
    active := true
    speed := c.speed
    health := c.health
    maxHealth := c.health
    size := c.size
    color := c.color
    scoreValue := c.score
    rotationSpeed := c.rotationSpeed.getD 90
    wobbleAmplitude := c.wobble.getD 20
    canShoot := c.canShoot.getD false
    shootCooldown := c.shootCooldown.getD 2
    shieldActive := c.shieldActive.getD false
    shieldTimer := c.shieldTimer.getD 5
    splitOnDeath := c.splitOnDeath.getD false
    spawnMinions := c.spawnMinions.getD false
    energyDrain := c.energyDrain.getD false
    phaseAbility := c.phaseAbility.getD false
    teleportTimer := c.teleportTimer.getD 5
    accel := c.accel.getD 0
    aiTargeting := c.aiTargeting.getD false }

/-- `Enemy(x, y, enemy_type)`: the constructor resolves the type tag with
`enemy_configs.get(self.enemy_type, enemy_configs["basic"])`
(src/entities/enemy.py line 130), so an unknown tag falls back to the
"basic" entry and construction never fails. -/
def mkEnemy (x y : ℚ) (tag : String) : EnemyState :=
  applyConfig x y tag ((enemyConfigs tag).getD
    { speed := 80, health := 1, size := 15, color := (255, 100, 100),
      score := 10, rotationSpeed := some 90, wobble := some 20 })

/-- `Enemy.take_damage(damage)` (src/entities/enemy.py lines 465-478).
Returns the Python return value (destroyed?) together with the mutated
state.  Note the function has no guard on `self.active`. -/
def takeDamage (e : EnemyState) (damage : Int) : Bool × EnemyState :=
  if e.shieldActive = true ∧ 0 < e.shieldTimer then
    let t := e.shieldTimer - (damage : ℚ) * (1/2)
    (false, { e with shieldTimer := t,
                     shieldActive := if t ≤ 0 then false else e.shieldActive })
  else
    let h := e.health - damage
    if h ≤ 0 then
      (true, { e with health := h, active := false })
    else
      (false, { e with health := h })

/-- Value of `math.cos(i * math.pi)` for natural `i`, modelled exactly
(the source evaluates it in floating point; at multiples of π the cosine
is ±1). -/
def cosPiMult (i : Nat) : ℚ :=
  if i % 2 = 0 then 1 else -1

/-- Value of `math.sin(i * math.pi)` for natural `i`, modelled exactly
(zero at every multiple of π). -/
def sinPiMult (_ : Nat) : ℚ := 0

/-- One loop iteration of `Enemy.get_split_enemies`
(src/entities/enemy.py lines 491-500): builds the `i`-th child — a "fast"
enemy at the offset position whose `size`, `health` and `score_value` are
then overwritten. -/
def splitChild (e : EnemyState) (i : Nat) : EnemyState :=
  let offsetX : ℚ := cosPiMult i * 30
  let offsetY : ℚ := sinPiMult i * 30
  let smaller := mkEnemy (e.x + offsetX) (e.y + offsetY) "fast"
  { smaller with size := Int.fdiv e.size 2,
                 health := 1,
                 scoreValue := Int.fdiv e.scoreValue 3 }

/-- `Enemy.get_split_enemies()` (src/entities/enemy.py lines 485-502):
returns `[]` unless `split_on_death`, else the two children of the
`for i in range(2)` loop. -/
def getSplitEnemies (e : EnemyState) : List EnemyState :=
  if e.splitOnDeath = false then []
  else (List.range 2).map (splitChild e)

/-- `WAVE_BOSS_FREQUENCY` (src/config/settings.py): boss every 5 waves. -/
def WAVE_BOSS_FREQUENCY : Nat := 5

/-- `WAVE_BREAK_DURATION` (src/config/settings.py): 3 seconds. -/
def WAVE_BREAK_DURATION : ℚ := 3

/-- `Wave._calculate_enemy_count` (src/systems/wave_system.py lines
30-41): bracketed base count plus a `random.randint(-2, 3)` variation
(passed here as the oracle argument `variation`), floored at 5. -/
def calculateEnemyCount (waveNumber : Nat) (variation : Int) : Int :=
  let baseCount : Int :=
    if waveNumber ≤ 5 then 6 + (waveNumber : Int) * 2
    else if waveNumber ≤ 10 then 16 + ((waveNumber : Int) - 5) * 3
    else 31 + ((waveNumber : Int) - 10) * 2
  max 5 (baseCount + variation)

/-- `Wave._calculate_spawn_rate` (src/systems/wave_system.py lines 43-51). -/
def calculateSpawnRate (waveNumber : Nat) : ℚ :=
  let baseRate : ℚ := 6/5
  if waveNumber ≤ 3 then baseRate
  else if waveNumber ≤ 8 then baseRate + ((waveNumber : ℚ) - 3) * (3/20)
  else baseRate + 3/4 + ((waveNumber : ℚ) - 8) * (1/10)

/-- `Wave._calculate_speed_multiplier` (src/systems/wave_system.py lines
53-59). -/
def calculateSpeedMultiplier (waveNumber : Nat) : ℚ :=
  if waveNumber ≤ 5 then 1 + ((waveNumber : ℚ) - 1) * (1/10)
  else 1 + 2/5 + ((waveNumber : ℚ) - 5) * (1/20)

/-- `Wave._calculate_health_multiplier` (src/systems/wave_system.py lines
61-68). -/
def calculateHealthMultiplier (waveNumber : Nat) : ℚ :=
  if waveNumber ≤ 3 then 1
  else if waveNumber ≤ 8 then 1 + ((waveNumber : ℚ) - 3) * (3/20)
  else 7/4 + ((waveNumber : ℚ) - 8) * (1/10)

/-- `Wave._determine_special_event` (src/systems/wave_system.py lines
70-86).  The `random.random()` draw is the oracle argument `roll`; the
`random.choice(events)` pick is modelled by indexing the events list with
the oracle argument `choiceIx` (mod its length), covering every possible
choice. -/
def determineSpecialEvent (waveNumber : Nat) (isBossWave : Bool)
    (roll : ℚ) (choiceIx : Nat) : Option String :=
  if isBossWave then none
  else if waveNumber < 4 then none
  else
    let eventChance : ℚ := min (1/4) (((waveNumber : ℚ) - 3) * (3/100))
    if roll < eventChance then
      let events := if 8 ≤ waveNumber then ["invasion", "elite_squad", "boss_rush"]
                    else ["invasion", "elite_squad"]
      some (events.getD (choiceIx % events.length) "invasion")
    else none

/-- State of one `Wave` object (src/systems/wave_system.py lines 13-28),
restricted to the fields the embedded `WaveManager` methods read or
write. -/
structure WaveState where
  waveNumber : Nat
  enemiesToSpawn : Int
  enemiesSpawned : Int
  spawnRate : ℚ
  speedMultiplier : ℚ
  healthMultiplier : ℚ
  isBossWave : Bool
  isSpecialEvent : Option String
  completed : Bool
  deriving Repr, DecidableEq

/-- `Wave.__init__(wave_number)` (src/systems/wave_system.py lines
13-28); `variation`, `roll`, `choiceIx` are the random draws consumed by
`_calculate_enemy_count` and `_determine_special_event`. -/
def mkWave (waveNumber : Nat) (variation : Int) (roll : ℚ) (choiceIx : Nat) : WaveState :=
  { waveNumber := waveNumber
    enemiesToSpawn := calculateEnemyCount waveNumber variation
    enemiesSpawned := 0
    spawnRate := calculateSpawnRate waveNumber
    speedMultiplier := calculateSpeedMultiplier waveNumber
    healthMultiplier := calculateHealthMultiplier waveNumber
    isBossWave := waveNumber % WAVE_BOSS_FREQUENCY == 0
    isSpecialEvent := determineSpecialEvent waveNumber
      (waveNumber % WAVE_BOSS_FREQUENCY == 0) roll choiceIx
    completed := false }

/-- State of the `WaveManager` (src/systems/wave_system.py lines 92-112).
The alive-set `enemies_alive` and the event-unit set `event_enemies` are
tracked by their sizes, which is all the embedded control flow reads
(`len(...) == 0` / truthiness checks) and writes (`extend`, removal). -/
structure WMState where
  currentWaveNumber : Nat
  currentWave : Option WaveState
  waveActive : Bool
  waveBreakTimer : ℚ
  spawnTimer : ℚ
  specialEventTimer : ℚ
  waveStartTimer : ℚ
  waveWarningShown : Bool
  enemiesAlive : Nat
  eventEnemies : Nat
  deriving Repr, DecidableEq

/-- Oracle inputs consumed by one `WaveManager.update(dt, ...)` call: the
frame delta, the random draws a freshly constructed `Wave` makes, the
sizes of the lists the enemy spawner returns, the number of pending split
children released and minions trickle-spawned this frame, and how many
units `_update_enemies` discards from each set (dead or out of bounds).
Quantifying over all oracle values covers every behavior of the
collaborators. -/
structure StepIn where
  dt : ℚ
  variation : Int
  roll : ℚ
  choiceIx : Nat
  eventSpawnCount : Nat
  regularSpawnCount : Nat
  splitsReleased : Nat
  minionsAdded : Nat
  removedAlive : Nat
  removedEvent : Nat
  deriving Repr, DecidableEq

/-- `WaveManager.start_new_wave` (src/systems/wave_system.py lines
114-126): constructs `Wave(current_wave_number)`, activates the wave,
resets the break/spawn/start timers and clears the event-unit set
(`event_enemies.clear()`).  Note `special_event_timer` is not reset. -/
def startNewWave (s : WMState) (i : StepIn) : WMState :=
  { s with currentWave := some (mkWave s.currentWaveNumber i.variation i.roll i.choiceIx)
           waveActive := true
           waveBreakTimer := 0
           spawnTimer := 0
           waveStartTimer := 5/2
           waveWarningShown := false
           eventEnemies := 0 }

/-- `WaveManager._handle_special_event` (src/systems/wave_system.py lines
190-208): accumulates `special_event_timer`; once it reaches 1.0 and the
event set is still empty, extends both `event_enemies` and
`enemies_alive` with the spawner's burst.  `enemies_spawned` is never
touched. -/
def handleSpecialEvent (s : WMState) (i : StepIn) : WMState :=
  let s1 := { s with specialEventTimer := s.specialEventTimer + i.dt }
  if 1 ≤ s1.specialEventTimer ∧ s1.eventEnemies = 0 then
    { s1 with eventEnemies := s1.eventEnemies + i.eventSpawnCount
              enemiesAlive := s1.enemiesAlive + i.eventSpawnCount }
  else s1

/-- `WaveManager._handle_regular_spawning` (src/systems/wave_system.py
lines 210-228): accumulates `spawn_timer`; when it reaches the spawn
interval `1.0 / spawn_rate`, resets it and appends the spawner's units to
`enemies_alive` while incrementing `enemies_spawned` by the batch size. -/
def handleRegularSpawning (s : WMState) (w : WaveState) (i : StepIn) : WMState :=
  let st := s.spawnTimer + i.dt
  if 1 / w.spawnRate ≤ st then
    { s with spawnTimer := 0
             enemiesAlive := s.enemiesAlive + i.regularSpawnCount
             currentWave := some { w with
               enemiesSpawned := w.enemiesSpawned + (i.regularSpawnCount : Int) } }
  else { s with spawnTimer := st }

/-- `WaveManager._complete_wave` (src/systems/wave_system.py lines
288-307): deactivates the wave and increments the wave number (the
notification calls are external side effects). -/
def completeWave (s : WMState) : WMState :=
  { s with waveActive := false, currentWaveNumber := s.currentWaveNumber + 1 }

/-- The wave-completion check at the end of `WaveManager.update`
(src/systems/wave_system.py lines 166-169): completes the wave iff the
spawn quota is met and both the alive-set and the event-unit set are
empty. -/
def checkWaveComplete (s : WMState) : WMState :=
  match s.currentWave with
  | some w =>
      if w.enemiesToSpawn ≤ w.enemiesSpawned ∧ s.enemiesAlive = 0 ∧ s.eventEnemies = 0
      then completeWave s
      else s
  | none => s

/-- The body of `WaveManager.update` executed while `wave_active` with a
current wave (src/systems/wave_system.py lines 143-169), up to but not
including the completion check: wave-start timer decrement, special-event
or regular spawning (the `elif`), split release, minion spawning, and
`_update_enemies` removals (removals truncate at zero like list
filtering). -/
def wmActiveStep (s : WMState) (w : WaveState) (i : StepIn) : WMState :=
  let s1 := if 0 < s.waveStartTimer
            then { s with waveStartTimer := s.waveStartTimer - i.dt } else s
  let s2 :=
    match w.isSpecialEvent with
    | some _ => handleSpecialEvent s1 i
    | none =>
        if w.enemiesSpawned < w.enemiesToSpawn ∧ s1.waveStartTimer ≤ 0
        then handleRegularSpawning s1 w i
        else s1
  let s3 := { s2 with enemiesAlive := s2.enemiesAlive + i.splitsReleased + i.minionsAdded }
  { s3 with enemiesAlive := s3.enemiesAlive - i.removedAlive
            eventEnemies := s3.eventEnemies - i.removedEvent }

/-- `WaveManager.update(dt, enemy_spawner, notification_manager)`
(src/systems/wave_system.py lines 128-169).  During a break the break
timer accrues, the one-shot wave warning fires after 1.0 s, and once
`WAVE_BREAK_DURATION` elapses `start_new_wave()` runs and the call
returns; while a wave is active the active-step body runs followed by the
completion check. -/
def wmUpdate (s : WMState) (i : StepIn) : WMState :=
  if s.waveActive = true then
    match s.currentWave with
    | some w => checkWaveComplete (wmActiveStep s w i)
    | none => s
  else
    let s1 := { s with waveBreakTimer := s.waveBreakTimer + i.dt }
    let s2 := if 1 ≤ s1.waveBreakTimer ∧ s1.waveWarningShown = false
              then { s1 with waveWarningShown := true } else s1
    if WAVE_BREAK_DURATION ≤ s2.waveBreakTimer then startNewWave s2 i else s2

/-- Iterated `WaveManager.update` over a sequence of frames. -/
def wmRun (s : WMState) (l : List StepIn) : WMState :=
  l.foldl wmUpdate s

/-- State of the `Player` (src/entities/player.py), restricted to the
health/shield/invulnerability attributes the embedded methods touch. -/
structure PlayerState where
  health : Int
  maxHealth : Int
  shieldActive : Bool
  shieldEnergy : ℚ
  maxShieldEnergy : ℚ
  lastShieldHit : ℚ
  shieldOpacity : Int
  invulnerabilityTimer : ℚ
  deriving Repr, DecidableEq

/-- `Player.take_damage(damage)` (src/entities/player.py lines 107-120):
a no-op returning `False` while the invulnerability timer is positive;
otherwise subtracts health, arms 1.0 s of invulnerability, and returns
whether the player died (`health <= 0`).  The particle burst is an
external side effect. -/
def playerTakeDamage (p : PlayerState) (damage : Int) : Bool × PlayerState :=
  if 0 < p.invulnerabilityTimer then
    (false, p)
  else
    let p1 := { p with health := p.health - damage, invulnerabilityTimer := 1 }
    (p1.health ≤ 0, p1)

/-- The invulnerability-timer decrement inside `Player.update`
(src/entities/player.py lines 391-393). -/
def playerUpdateInvulnTimer (p : PlayerState) (dt : ℚ) : PlayerState :=
  if 0 < p.invulnerabilityTimer
  then { p with invulnerabilityTimer := p.invulnerabilityTimer - dt }
  else p

/-- Iterated invulnerability-timer decrements over a list of frame
deltas. -/
def playerRunInvulnTimer (p : PlayerState) (l : List ℚ) : PlayerState :=
  l.foldl playerUpdateInvulnTimer p

/-- `Player._update_shield_effects(dt)` (src/entities/player.py lines
272-281): advances `last_shield_hit`, resets the shield opacity after
0.5 s, and clamps `shield_energy` into `[0, max_shield_energy]`. -/
def updateShieldEffects (p : PlayerState) (dt : ℚ) : PlayerState :=
  let p1 := { p with lastShieldHit := p.lastShieldHit + dt }
  let p2 := if 1/2 < p1.lastShieldHit then { p1 with shieldOpacity := 150 } else p1
  { p2 with shieldEnergy := max 0 (min p2.maxShieldEnergy p2.shieldEnergy) }

/-- The enemy-bullet-vs-player branch of
`GameManager._handle_enhanced_collisions` (src/core/game_manager.py lines
327-347), for one bullet hit: with an active, charged shield the bullet's
damage drains shield energy at the ×10 conversion (shield-hit visuals and
shake are external); otherwise `player.take_damage(damage * 15)` runs and
a `True` result triggers the game-over transition.  Returns the player
state and whether game over was triggered. -/
def handleEnemyBulletHit (p : PlayerState) (bulletDamage : Int) : PlayerState × Bool :=
  if p.shieldActive = true ∧ 0 < p.shieldEnergy then
    ({ p with shieldEnergy := p.shieldEnergy - (bulletDamage : ℚ) * 10 }, false)
  else
    let r := playerTakeDamage p (bulletDamage * 15)
    (r.2, r.1)

/-- Sample wave fixture: quota met, no special event (used by witness
theorems). -/
def sampleWave : WaveState :=
  { waveNumber := 1, enemiesToSpawn := 5, enemiesSpawned := 5, spawnRate := 6/5,
    speedMultiplier := 1, healthMultiplier := 1, isBossWave := false,
    isSpecialEvent := none, completed := false }

/-- Sample manager fixture: active wave `sampleWave`, empty alive and
event sets. -/
def sampleManager : WMState :=
  { currentWaveNumber := 1, currentWave := some sampleWave, waveActive := true,
    waveBreakTimer := 0, spawnTimer := 0, specialEventTimer := 0, waveStartTimer := 0,
    waveWarningShown := true, enemiesAlive := 0, eventEnemies := 0 }

/-- Sample break-state manager fixture at wave number 4 (used to start a
special-event wave in a witness). -/
def sampleBreakManager : WMState :=
  { currentWaveNumber := 4, currentWave := none, waveActive := false,
    waveBreakTimer := 0, spawnTimer := 0, specialEventTimer := 0, waveStartTimer := 0,
    waveWarningShown := false, enemiesAlive := 0, eventEnemies := 0 }

/-- Sample all-zero frame input fixture. -/
def sampleInput : StepIn :=
  { dt := 0, variation := 0, roll := 0, choiceIx := 0, eventSpawnCount := 0,
    regularSpawnCount := 0, splitsReleased := 0, minionsAdded := 0,
    removedAlive := 0, removedEvent := 0 }

/-- Sample player fixture: active shield with 5 energy, no pending
invulnerability. -/
def samplePlayer : PlayerState :=
  { health := 100, maxHealth := 100, shieldActive := true, shieldEnergy := 5,
    maxShieldEnergy := 100, lastShieldHit := 0, shieldOpacity := 150,
    invulnerabilityTimer := 0 }

/-! Helper lemmas shared by the claim theorems. -/

theorem calculateEnemyCount_ge_five (w : Nat) (v : Int) :
    5 ≤ calculateEnemyCount w v :=
  le_max_left 5 _

theorem wmActiveStep_waveActive (s : WMState) (w : WaveState) (i : StepIn) :
    (wmActiveStep s w i).waveActive = s.waveActive := by
  unfold wmActiveStep handleSpecialEvent handleRegularSpawning
  cases w.isSpecialEvent <;> simp only [] <;> split_ifs <;> rfl

theorem wmActiveStep_currentWave_some (s : WMState) (w : WaveState) (i : StepIn)
    (h : s.currentWave = some w) :
    ∃ w2, (wmActiveStep s w i).currentWave = some w2 := by
  unfold wmActiveStep handleSpecialEvent handleRegularSpawning
  cases w.isSpecialEvent <;> simp only [] <;> split_ifs <;>
    first | exact ⟨w, h⟩ | exact ⟨_, rfl⟩

/-! Claim theorems. -/

/-- C8: constructing an `Enemy` with a type tag that is not in the
`enemy_configs` table never fails and configures the unit with the
default "basic" stats (speed 80, health 1, size 15, score 10), identical
to the stats a "basic" enemy gets. -/
theorem c8_unknown_tag_falls_back (tag : String) (x y : ℚ)
    (h : enemyConfigs tag = none) :
    (mkEnemy x y tag).speed = 80 ∧ (mkEnemy x y tag).health = 1 ∧
    (mkEnemy x y tag).size = 15 ∧ (mkEnemy x y tag).scoreValue = 10 ∧
    (mkEnemy x y tag).active = true ∧
    (mkEnemy x y tag).speed = (mkEnemy x y "basic").speed ∧
    (mkEnemy x y tag).health = (mkEnemy x y "basic").health ∧
    (mkEnemy x y tag).size = (mkEnemy x y "basic").size ∧
    (mkEnemy x y tag).scoreValue = (mkEnemy x y "basic").scoreValue := by
  simp only [mkEnemy, h, Option.getD_none]
  simp [applyConfig, enemyConfigs]

/-- C8 witness: the unknown tag "ufo" yields a unit with basic stats. -/
theorem c8_witness :
    (mkEnemy 0 0 "ufo").speed = 80 ∧ (mkEnemy 0 0 "ufo").health = 1 ∧
    (mkEnemy 0 0 "ufo").size = 15 ∧ (mkEnemy 0 0 "ufo").scoreValue = 10 := by
  obtain ⟨h1, h2, h3, h4, -⟩ := c8_unknown_tag_falls_back "ufo" 0 0 rfl
  exact ⟨h1, h2, h3, h4⟩

/-- C1 counterexample: `take_damage` has no guard on `active`, so a
second non-absorbed lethal call after the unit is already inactive
returns `True` again.  A "basic" enemy (health 1) hit twice for 1 damage:
the first call returns `True` and deactivates; the second call returns
`True` as well. -/
theorem c1_counterexample :
    (takeDamage (mkEnemy 0 0 "basic") 1).1 = true ∧
    (takeDamage (mkEnemy 0 0 "basic") 1).2.active = false ∧
    (takeDamage (takeDamage (mkEnemy 0 0 "basic") 1).2 1).1 = true := by
  decide

/-- C1 (amended): when the shield is not absorbing, `take_damage(d)`
leaves health at exactly `health - d` (never clamped further) and returns
`True` precisely when the resulting health is ≤ 0 — on every such call,
including calls made after `active` is already `False`, since the
function never consults `active`. -/
theorem c1_take_damage_no_active_guard (e : EnemyState) (d : Int)
    (h : ¬(e.shieldActive = true ∧ 0 < e.shieldTimer)) :
    ((takeDamage e d).1 = true ↔ e.health - d ≤ 0) ∧
    (takeDamage e d).2.health = e.health - d ∧
    (takeDamage e d).2.active = (if e.health - d ≤ 0 then false else e.active) := by
  simp only [takeDamage, if_neg h]
  split_ifs with h2 <;> simp [h2]

/-- C1 witness: the amended theorem at a "basic" enemy hit for 5. -/
theorem c1_witness :
    ((takeDamage (mkEnemy 0 0 "basic") 5).1 = true ↔
      (mkEnemy 0 0 "basic").health - 5 ≤ 0) ∧
    (takeDamage (mkEnemy 0 0 "basic") 5).2.health = (mkEnemy 0 0 "basic").health - 5 ∧
    (takeDamage (mkEnemy 0 0 "basic") 5).2.active =
      (if (mkEnemy 0 0 "basic").health - 5 ≤ 0 then false
       else (mkEnemy 0 0 "basic").active) :=
  c1_take_damage_no_active_guard (mkEnemy 0 0 "basic") 5 (by decide)

/-- C5 counterexample: a "shielded" enemy starts with a shield pool
(`shield_timer`) of 8; `take_damage(10)` drains it by 10 × 0.5 = 5,
leaving 3, so the shield does NOT deactivate (the claim asserted it
would); health is unchanged and the call returns `False`. -/
theorem c5_counterexample :
    (takeDamage (mkEnemy 0 0 "shielded") 10).2.shieldActive = true ∧
    (takeDamage (mkEnemy 0 0 "shielded") 10).2.shieldTimer = 3 ∧
    (takeDamage (mkEnemy 0 0 "shielded") 10).2.health = 3 ∧
    (takeDamage (mkEnemy 0 0 "shielded") 10).1 = false := by
  norm_num [takeDamage, mkEnemy, applyConfig, enemyConfigs]

/-- C5 (amended): with an active, charged shield, `take_damage(d)` leaves
health unchanged, returns `False`, drains the shield pool by d × 0.5, and
deactivates the shield exactly when the drained pool is ≤ 0 (so a pool of
8 survives a 10-damage hit with 3 remaining). -/
theorem c5_shield_absorb (e : EnemyState) (d : Int)
    (h1 : e.shieldActive = true) (h2 : 0 < e.shieldTimer) :
    (takeDamage e d).1 = false ∧
    (takeDamage e d).2.health = e.health ∧
    (takeDamage e d).2.shieldTimer = e.shieldTimer - (d : ℚ) * (1/2) ∧
    ((takeDamage e d).2.shieldActive = false ↔
      e.shieldTimer - (d : ℚ) * (1/2) ≤ 0) := by
  simp only [takeDamage, if_pos (And.intro h1 h2)]
  refine ⟨trivial, trivial, trivial, ?_⟩
  split_ifs with h3
  · exact iff_of_true rfl h3
  · rw [h1]
    exact iff_of_false (by simp) h3

/-- C5 witness: the amended theorem at the "shielded" enemy hit for 10. -/
theorem c5_witness :
    (takeDamage (mkEnemy 0 0 "shielded") 10).1 = false ∧
    (takeDamage (mkEnemy 0 0 "shielded") 10).2.health = (mkEnemy 0 0 "shielded").health ∧
    (takeDamage (mkEnemy 0 0 "shielded") 10).2.shieldTimer =
      (mkEnemy 0 0 "shielded").shieldTimer - (10 : ℚ) * (1/2) ∧
    ((takeDamage (mkEnemy 0 0 "shielded") 10).2.shieldActive = false ↔
      (mkEnemy 0 0 "shielded").shieldTimer - (10 : ℚ) * (1/2) ≤ 0) :=
  c5_shield_absorb (mkEnemy 0 0 "shielded") 10 rfl (by norm_num [mkEnemy, applyConfig, enemyConfigs])

/-- C7: a unit with `split_on_death` yields exactly 2 children from
`get_split_enemies`, each with health 1 and score `⌊parent_score / 3⌋`,
at the symmetric offsets (+30, 0) and (−30, 0) from the parent. -/
theorem c7_split_children (e : EnemyState) (h : e.splitOnDeath = true) :
    (getSplitEnemies e).length = 2 ∧
    (∀ c ∈ getSplitEnemies e, c.health = 1 ∧ c.scoreValue = Int.fdiv e.scoreValue 3) ∧
    (getSplitEnemies e).map (fun c => (c.x, c.y)) =
      [(e.x + 30, e.y), (e.x - 30, e.y)] := by
  have hlist : getSplitEnemies e = [splitChild e 0, splitChild e 1] := by
    simp [getSplitEnemies, h, List.range_succ]
  refine ⟨by simp [hlist], ?_, ?_⟩
  · intro c hc
    rw [hlist] at hc
    simp only [List.mem_cons, List.not_mem_nil, or_false] at hc
    rcases hc with hc | hc <;> subst hc <;> simp [splitChild]
  · rw [hlist]
    simp [splitChild, cosPiMult, sinPiMult, mkEnemy, applyConfig]
    ring

/-- C7 witness: the "splitter" enemy (score 100) at (100, 200) splits
into two children of score 33 at (130, 200) and (70, 200). -/
theorem c7_witness :
    (getSplitEnemies (mkEnemy 100 200 "splitter")).length = 2 ∧
    (∀ c ∈ getSplitEnemies (mkEnemy 100 200 "splitter"),
      c.health = 1 ∧ c.scoreValue = Int.fdiv (mkEnemy 100 200 "splitter").scoreValue 3) ∧
    (getSplitEnemies (mkEnemy 100 200 "splitter")).map (fun c => (c.x, c.y)) =
      [((mkEnemy 100 200 "splitter").x + 30, (mkEnemy 100 200 "splitter").y),
       ((mkEnemy 100 200 "splitter").x - 30, (mkEnemy 100 200 "splitter").y)] :=
  c7_split_children (mkEnemy 100 200 "splitter") (by decide)

/-- C3: a constructed `Wave` has `is_boss_wave` true iff the wave number
is divisible by `WAVE_BOSS_FREQUENCY` (5), and whenever it is a boss wave
the special-event tag is `None`, for every random draw. -/
theorem c3_boss_wave_exclusive (w : Nat) (v : Int) (r : ℚ) (c : Nat) :
    ((mkWave w v r c).isBossWave = true ↔ w % WAVE_BOSS_FREQUENCY = 0) ∧
    ((mkWave w v r c).isBossWave = true → (mkWave w v r c).isSpecialEvent = none) := by
  constructor
  · simp [mkWave]
  · intro h
    simp only [mkWave] at h ⊢
    simp only [determineSpecialEvent, h]
    simp [beq_iff_eq] at h
    simp [h]

/-- C3 witness: wave 5 is a boss wave and carries no special event. -/
theorem c3_witness :
    (mkWave 5 0 0 0).isBossWave = true ∧ (mkWave 5 0 0 0).isSpecialEvent = none :=
  ⟨(c3_boss_wave_exclusive 5 0 0 0).1.mpr (by decide),
   (c3_boss_wave_exclusive 5 0 0 0).2
     ((c3_boss_wave_exclusive 5 0 0 0).1.mpr (by decide))⟩

/-- C4 counterexample: the randomized ±variation breaks monotonicity
across consecutive waves — wave 2 drawing variation −2 yields 8 enemies,
strictly fewer than wave 1 drawing variation +3, which yields 11. -/
theorem c4_counterexample :
    calculateEnemyCount 2 (-2) < calculateEnemyCount 1 3 := by decide

/-- C4 (amended): the bracketed enemy count is monotone non-decreasing
across consecutive waves when both waves draw the same variation (in
particular the pre-variation base count is monotone); with independent
draws the property fails. -/
theorem c4_monotone_same_draw (w : Nat) (hw : 2 ≤ w) (v : Int) :
    calculateEnemyCount (w - 1) v ≤ calculateEnemyCount w v := by
  unfold calculateEnemyCount
  simp only []
  split_ifs <;> exact max_le_max le_rfl (by omega)

/-- C4 witness: the amended monotonicity at waves 1 → 2 with the shared
draw −2. -/
theorem c4_witness :
    calculateEnemyCount (2 - 1) (-2) ≤ calculateEnemyCount 2 (-2) :=
  c4_monotone_same_draw 2 (by decide) (-2)

/-- C2: from any active-wave state and under any frame input (any timing,
any spawner/updater behavior), `WaveManager.update` transitions to Break
iff, after the frame's sub-steps, the spawn quota is met AND the
alive-set is empty AND the event-unit set is empty; in particular
completion is never asserted while any unit is still alive. -/
theorem c2_wave_completion_iff (s : WMState) (w : WaveState) (i : StepIn)
    (hact : s.waveActive = true) (hw : s.currentWave = some w) :
    ((wmUpdate s i).waveActive = false ↔
      (∃ w2, (wmUpdate s i).currentWave = some w2 ∧
        w2.enemiesToSpawn ≤ w2.enemiesSpawned) ∧
      (wmUpdate s i).enemiesAlive = 0 ∧ (wmUpdate s i).eventEnemies = 0) := by
  have hu : wmUpdate s i = checkWaveComplete (wmActiveStep s w i) := by
    simp [wmUpdate, hact, hw]
  obtain ⟨w2, hw2⟩ := wmActiveStep_currentWave_some s w i hw
  have hta : (wmActiveStep s w i).waveActive = true := by
    rw [wmActiveStep_waveActive]; exact hact
  rw [hu]
  unfold checkWaveComplete
  rw [hw2]
  simp only []
  split_ifs with hg
  · exact iff_of_true rfl ⟨⟨w2, hw2, hg.1⟩, hg.2.1, hg.2.2⟩
  · constructor
    · intro hfalse
      rw [hta] at hfalse
      exact absurd hfalse (by simp)
    · rintro ⟨⟨w2x, hw2x, hq⟩, ha, he⟩
      rw [hw2] at hw2x
      injection hw2x with hww
      subst hww
      exact absurd ⟨hq, ha, he⟩ hg

/-- C2 witness: the completion ⇒ quota-met-and-empty direction at a
concrete completing frame. -/
theorem c2_witness :
    (∃ w2, (wmUpdate sampleManager sampleInput).currentWave = some w2 ∧
      w2.enemiesToSpawn ≤ w2.enemiesSpawned) ∧
    (wmUpdate sampleManager sampleInput).enemiesAlive = 0 ∧
    (wmUpdate sampleManager sampleInput).eventEnemies = 0 :=
  (c2_wave_completion_iff sampleManager sampleWave sampleInput rfl rfl).mp
    (by simp [wmUpdate, wmActiveStep, checkWaveComplete, completeWave,
              handleSpecialEvent, handleRegularSpawning,
              sampleManager, sampleWave, sampleInput])

/-- One step of the C9 invariant: while the active wave carries a special
event and has spawned nothing, `WaveManager.update` keeps the wave active
(the special-event branch replaces regular spawning and never increments
`enemies_spawned`, and the quota — at least 5 — stays unmet). -/
theorem wmUpdate_special_event_step (s : WMState) (w : WaveState) (i : StepIn) (e : String)
    (hact : s.waveActive = true) (hw : s.currentWave = some w)
    (hev : w.isSpecialEvent = some e) (hsp : w.enemiesSpawned = 0)
    (hts : 5 ≤ w.enemiesToSpawn) :
    (wmUpdate s i).waveActive = true ∧ (wmUpdate s i).currentWave = some w := by
  have hu : wmUpdate s i = checkWaveComplete (wmActiveStep s w i) := by
    simp [wmUpdate, hact, hw]
  have hstep : (wmActiveStep s w i).currentWave = s.currentWave ∧
      (wmActiveStep s w i).waveActive = s.waveActive := by
    unfold wmActiveStep handleSpecialEvent handleRegularSpawning
    rw [hev]
    simp only []
    split_ifs <;> exact ⟨rfl, rfl⟩
  have hng : ¬(w.enemiesToSpawn ≤ w.enemiesSpawned ∧
      (wmActiveStep s w i).enemiesAlive = 0 ∧ (wmActiveStep s w i).eventEnemies = 0) := by
    rintro ⟨hq, -, -⟩
    rw [hsp] at hq
    omega
  rw [hu]
  unfold checkWaveComplete
  rw [hstep.1, hw]
  simp only []
  rw [if_neg hng]
  exact ⟨hstep.2.trans hact, hstep.1.trans hw⟩

/-- Iterated C9 invariant: the special-event wave stays active and
unchanged over any sequence of frames. -/
theorem wmRun_special_event (l : List StepIn) (s : WMState) (w : WaveState) (e : String)
    (hact : s.waveActive = true) (hw : s.currentWave = some w)
    (hev : w.isSpecialEvent = some e) (hsp : w.enemiesSpawned = 0)
    (hts : 5 ≤ w.enemiesToSpawn) :
    (wmRun s l).waveActive = true ∧ (wmRun s l).currentWave = some w := by
  induction l generalizing s with
  | nil => exact ⟨hact, hw⟩
  | cons i t ih =>
      have h := wmUpdate_special_event_step s w i e hact hw hev hsp hts
      exact ih (wmUpdate s i) h.1 h.2

/-- C9: a wave started with a special-event tag never completes: under
every subsequent frame sequence the Wave Director stays in Active with
the same wave object — the special-event branch never increments
`enemies_spawned` (which starts at 0) while `enemies_to_spawn ≥ 5`
always, so the completion condition is unsatisfiable. -/
theorem c9_special_event_wave_never_completes
    (s0 : WMState) (i0 : StepIn) (l : List StepIn) (e : String)
    (hev : (mkWave s0.currentWaveNumber i0.variation i0.roll i0.choiceIx).isSpecialEvent
      = some e) :
    (wmRun (startNewWave s0 i0) l).waveActive = true ∧
    (wmRun (startNewWave s0 i0) l).currentWave =
      some (mkWave s0.currentWaveNumber i0.variation i0.roll i0.choiceIx) := by
  refine wmRun_special_event l (startNewWave s0 i0)
    (mkWave s0.currentWaveNumber i0.variation i0.roll i0.choiceIx) e ?_ ?_ hev rfl
    (calculateEnemyCount_ge_five _ _)
  · rfl
  · rfl

/-- C9 witness: wave 4 with roll 0 gets the "invasion" event; one frame
later the wave is still active. -/
theorem c9_witness :
    (wmRun (startNewWave sampleBreakManager sampleInput) [sampleInput]).waveActive = true ∧
    (wmRun (startNewWave sampleBreakManager sampleInput) [sampleInput]).currentWave =
      some (mkWave sampleBreakManager.currentWaveNumber sampleInput.variation
        sampleInput.roll sampleInput.choiceIx) :=
  c9_special_event_wave_never_completes sampleBreakManager sampleInput [sampleInput]
    "invasion"
    (by norm_num [sampleBreakManager, sampleInput, mkWave, determineSpecialEvent,
                  WAVE_BOSS_FREQUENCY])

/-- C6: an enemy bullet of damage 1 hitting the player while the shield
is active with 5 energy drains the energy at the ×10 conversion (to
5 − 1·10), the player's health is unchanged, no game-over transition is
triggered, and the subsequent `_update_shield_effects` pass clamps the
shield energy to 0 (it is never left negative at an update boundary). -/
theorem c6_shield_absorbs_bullet (p : PlayerState) (dt : ℚ)
    (hact : p.shieldActive = true) (hen : p.shieldEnergy = 5) :
    (handleEnemyBulletHit p 1).2 = false ∧
    (handleEnemyBulletHit p 1).1.health = p.health ∧
    (handleEnemyBulletHit p 1).1.shieldEnergy = 5 - (1 : ℚ) * 10 ∧
    (updateShieldEffects (handleEnemyBulletHit p 1).1 dt).shieldEnergy = 0 ∧
    (updateShieldEffects (handleEnemyBulletHit p 1).1 dt).health = p.health := by
  have hg : p.shieldActive = true ∧ 0 < p.shieldEnergy := ⟨hact, by rw [hen]; norm_num⟩
  unfold handleEnemyBulletHit
  rw [if_pos hg]
  refine ⟨rfl, rfl, by rw [hen]; norm_num, ?_, ?_⟩
  · unfold updateShieldEffects
    simp only []
    split_ifs <;>
      · simp only [hen]
        apply max_eq_left
        exact le_trans (min_le_right _ _) (by norm_num)
  · unfold updateShieldEffects
    simp only []
    split_ifs <;> rfl

/-- C6 witness: the theorem at the sample player (shield on, 5 energy)
and dt = 1/60. -/
theorem c6_witness :
    (handleEnemyBulletHit samplePlayer 1).2 = false ∧
    (handleEnemyBulletHit samplePlayer 1).1.health = samplePlayer.health ∧
    (handleEnemyBulletHit samplePlayer 1).1.shieldEnergy = 5 - (1 : ℚ) * 10 ∧
    (updateShieldEffects (handleEnemyBulletHit samplePlayer 1).1 (1/60)).shieldEnergy = 0 ∧
    (updateShieldEffects (handleEnemyBulletHit samplePlayer 1).1 (1/60)).health =
      samplePlayer.health :=
  c6_shield_absorbs_bullet samplePlayer (1/60) rfl rfl

/-- Helper for C10: `Player.take_damage` during invulnerability returns
`False` and leaves the state untouched. -/
theorem playerTakeDamage_invuln (p : PlayerState) (d : Int)
    (h : 0 < p.invulnerabilityTimer) :
    playerTakeDamage p d = (false, p) := by
  simp [playerTakeDamage, h]

/-- Helper for C10: iterating the invulnerability-timer decrement of
`Player.update` over nonnegative frame deltas whose total stays below the
current timer leaves the timer at exactly its old value minus the total. -/
theorem playerRunInvulnTimer_eq (l : List ℚ) (p : PlayerState)
    (hnn : ∀ x ∈ l, 0 ≤ x) (hs : l.sum < p.invulnerabilityTimer) :
    (playerRunInvulnTimer p l).invulnerabilityTimer = p.invulnerabilityTimer - l.sum := by
  induction l generalizing p with
  | nil => simp [playerRunInvulnTimer]
  | cons d t ih =>
      have hd : 0 ≤ d := hnn d (List.mem_cons_self d t)
      have ht : ∀ x ∈ t, 0 ≤ x := fun x hx => hnn x (List.mem_cons_of_mem d hx)
      have hts : 0 ≤ t.sum := List.sum_nonneg ht
      rw [List.sum_cons] at hs
      have hpos : 0 < p.invulnerabilityTimer := lt_of_le_of_lt (by linarith) hs
      have hstep : playerUpdateInvulnTimer p d =
          { p with invulnerabilityTimer := p.invulnerabilityTimer - d } := by
        simp [playerUpdateInvulnTimer, hpos]
      have : playerRunInvulnTimer p (d :: t) =
          playerRunInvulnTimer { p with invulnerabilityTimer := p.invulnerabilityTimer - d } t := by
        simp [playerRunInvulnTimer, hstep]
      rw [this, ih _ ht (by simp only []; linarith), List.sum_cons]
      simp only []
      ring

/-- C10: `Player.take_damage` is a pure no-op returning `False` while the
invulnerability timer is positive; a call that applies damage subtracts
the full amount and arms the timer at 1.0; and after any run of updates
totalling strictly less than 1 second of simulated time, a further
`take_damage` call is still ignored (returns `False`, state unchanged). -/
theorem c10_invulnerability (p : PlayerState) (d : Int) :
    (0 < p.invulnerabilityTimer → playerTakeDamage p d = (false, p)) ∧
    (p.invulnerabilityTimer ≤ 0 →
      (playerTakeDamage p d).2.invulnerabilityTimer = 1 ∧
      (playerTakeDamage p d).2.health = p.health - d) ∧
    (∀ (l : List ℚ) (d2 : Int), p.invulnerabilityTimer ≤ 0 →
      (∀ x ∈ l, 0 ≤ x) → l.sum < 1 →
      playerTakeDamage (playerRunInvulnTimer (playerTakeDamage p d).2 l) d2 =
        (false, playerRunInvulnTimer (playerTakeDamage p d).2 l)) := by
  refine ⟨fun h => playerTakeDamage_invuln p d h, fun h => ?_, ?_⟩
  · have hng : ¬0 < p.invulnerabilityTimer := not_lt.mpr h
    simp [playerTakeDamage, hng]
  · intro l d2 h hnn hsum
    have hng : ¬0 < p.invulnerabilityTimer := not_lt.mpr h
    have h1 : (playerTakeDamage p d).2.invulnerabilityTimer = 1 := by
      simp [playerTakeDamage, hng]
    have h2 := playerRunInvulnTimer_eq l (playerTakeDamage p d).2 hnn (by rw [h1]; exact hsum)
    have hpos : 0 < (playerRunInvulnTimer (playerTakeDamage p d).2 l).invulnerabilityTimer := by
      rw [h2, h1]
      linarith
    exact playerTakeDamage_invuln _ d2 hpos

/-- C10 witness: the sample player (timer 0) hit for 10, then two frames
of 1/2 and 1/4 seconds, then hit again for 3: the second hit is ignored. -/
theorem c10_witness :
    playerTakeDamage
        (playerRunInvulnTimer (playerTakeDamage samplePlayer 10).2 [1/2, 1/4]) 3 =
      (false, playerRunInvulnTimer (playerTakeDamage samplePlayer 10).2 [1/2, 1/4]) :=
  (c10_invulnerability samplePlayer 10).2.2 [1/2, 1/4] 3 (le_refl 0)
    (by norm_num) (by norm_num)

end PygameProject
